import Mathlib

/-!
Verification of the experimentation subsystem of the Shopify-app1.0
repository.  The visible source is the dashboard client
(src/frontend): the experiment-management screen, the creation wizard,
the results screen and the REST client.  The engine behind the REST
endpoints (registry, assignment engine, metrics collector, statistical
analyzer) is specified in spec.md but its code is not part of the
visible source; those parts are modelled from the spec and are marked
as such in their doc comments.
-/

namespace ABTesting

/-! ## Frontend data model (src/frontend/src/features/ab-testing) -/

/-- Experiment status union from the `Experiment` interface in
ExperimentManagement.tsx: 'DRAFT' | 'RUNNING' | 'PAUSED' | 'FINISHED' | 'ARCHIVED'. -/
inductive Status where
  | DRAFT
  | RUNNING
  | PAUSED
  | FINISHED
  | ARCHIVED
deriving DecidableEq, Repr, Fintype

/-- The four client-side lifecycle actions handled by `handleAction` in
ExperimentManagement.tsx: 'start' | 'pause' | 'end' | 'delete'. -/
inductive UIAction where
  | start
  | pause
  | endTest
  | delete
deriving DecidableEq, Repr, Fintype

/-- An HTTP request as assembled by `request` in src/api/client.ts:
method, url, and an optional JSON-serialized body (set only when `data`
is truthy). -/
structure Request where
  method : String
  url : String
  body : Option String
deriving DecidableEq, Repr

/-- client.get from src/api/client.ts: GET with no body. -/
def clientGet (url : String) : Request := ⟨"GET", url, none⟩

/-- client.post from src/api/client.ts: POST with `JSON.stringify(data)`
as body (every object literal passed by abTestingApi is truthy). -/
def clientPost (url : String) (data : String) : Request := ⟨"POST", url, some data⟩

/-- client.put from src/api/client.ts. -/
def clientPut (url : String) (data : String) : Request := ⟨"PUT", url, some data⟩

/-- client.delete from src/api/client.ts: DELETE with no body. -/
def clientDelete (url : String) : Request := ⟨"DELETE", url, none⟩

/-- The JSON serialization of the empty object literal passed by
startTest/pauseTest/endTest: `JSON.stringify` of an empty object. -/
def emptyObjectBody : String := "\x7b\x7d"

namespace abTestingApi

/-- abTestingApi.getTests from src/api/abTestingApi.ts. -/
def getTests : Request := clientGet "/api/ab-tests"

/-- abTestingApi.getTest from src/api/abTestingApi.ts. -/
def getTest (id : Nat) : Request := clientGet ("/api/ab-tests/" ++ toString id)

/-- abTestingApi.createTest from src/api/abTestingApi.ts. -/
def createTest (data : String) : Request := clientPost "/api/ab-tests" data

/-- abTestingApi.updateTest from src/api/abTestingApi.ts. -/
def updateTest (id : Nat) (data : String) : Request :=
  clientPut ("/api/ab-tests/" ++ toString id) data

/-- abTestingApi.deleteTest from src/api/abTestingApi.ts. -/
def deleteTest (id : Nat) : Request := clientDelete ("/api/ab-tests/" ++ toString id)

/-- abTestingApi.getResults from src/api/abTestingApi.ts. -/
def getResults (id : Nat) : Request :=
  clientGet ("/api/ab-tests/" ++ toString id ++ "/results")

/-- abTestingApi.startTest from src/api/abTestingApi.ts:
POST /api/experiments/:id/start with the empty object as payload. -/
def startTest (id : Nat) : Request :=
  clientPost ("/api/experiments/" ++ toString id ++ "/start") emptyObjectBody

/-- abTestingApi.pauseTest from src/api/abTestingApi.ts. -/
def pauseTest (id : Nat) : Request :=
  clientPost ("/api/experiments/" ++ toString id ++ "/pause") emptyObjectBody

/-- abTestingApi.endTest from src/api/abTestingApi.ts:
POST /api/experiments/:id/stop. -/
def endTest (id : Nat) : Request :=
  clientPost ("/api/experiments/" ++ toString id ++ "/stop") emptyObjectBody

/-- abTestingApi.declareWinner from src/api/abTestingApi.ts. -/
def declareWinner (id : Nat) (variantBody : String) : Request :=
  clientPost ("/api/ab-tests/" ++ toString id ++ "/declare-winner") variantBody

/-- The url templates of every endpoint of the abTestingApi object, in
source order, with `:id` standing for the interpolated test id. -/
def pathTemplates : List String :=
  [ "/api/ab-tests"
  , "/api/ab-tests/:id"
  , "/api/ab-tests"
  , "/api/ab-tests/:id"
  , "/api/ab-tests/:id"
  , "/api/ab-tests/:id/results"
  , "/api/experiments/:id/start"
  , "/api/experiments/:id/pause"
  , "/api/experiments/:id/stop"
  , "/api/ab-tests/:id/declare-winner"
  , "/api/ab-tests/:id/recommendations"
  , "/api/ai-recommendations" ]

end abTestingApi

/-- The switch in `handleAction` (ExperimentManagement.tsx): which API
request each UI action issues for a test id. -/
def handleActionRequest : UIAction → Nat → Request
  | .start, id => abTestingApi.startTest id
  | .pause, id => abTestingApi.pauseTest id
  | .endTest, id => abTestingApi.endTest id
  | .delete, id => abTestingApi.deleteTest id

/-- The action buttons rendered by `renderActions` (ExperimentManagement.tsx)
for each experiment status, as (label, UI action handled) pairs, in
source order.  Note the Resume button of a PAUSED experiment dispatches
the 'start' action. -/
def renderActions : Status → List (String × UIAction)
  | .DRAFT => [("Start", .start), ("Delete", .delete)]
  | .RUNNING => [("Pause", .pause), ("End", .endTest)]
  | .PAUSED => [("Resume", .start)]
  | .FINISHED => [("Delete", .delete)]
  | .ARCHIVED => [("Delete", .delete)]

/-- Whether `renderActions` offers a Delete button for a status. -/
def deleteOffered (s : Status) : Bool :=
  (renderActions s).any (fun p => p.2 = UIAction.delete)

/-- Whether `pre` is a prefix of the character list `l`. -/
def charsHavePrefix : List Char → List Char → Bool
  | _, [] => true
  | [], _ :: _ => false
  | c :: cs, d :: ds => c = d && charsHavePrefix cs ds

/-- Whether `needle` occurs as a contiguous substring of `hay`. -/
def charsHaveSubstr (hay needle : List Char) : Bool :=
  match hay with
  | [] => needle.isEmpty
  | _ :: rest => charsHavePrefix hay needle || charsHaveSubstr rest needle

/-- True when the string `needle` occurs nowhere in `hay`. -/
def noOccurrence (hay needle : String) : Bool :=
  !(charsHaveSubstr hay.toList needle.toList)

/-- Equality of Except values is decidable componentwise. -/
instance {ε α : Type} [DecidableEq ε] [DecidableEq α] : DecidableEq (Except ε α)
  | .error a, .error b =>
    if h : a = b then isTrue (congrArg Except.error h)
    else isFalse (fun he => h (Except.error.inj he))
  | .error _, .ok _ => isFalse (fun he => Except.noConfusion he)
  | .ok _, .error _ => isFalse (fun he => Except.noConfusion he)
  | .ok a, .ok b =>
    if h : a = b then isTrue (congrArg Except.ok h)
    else isFalse (fun he => h (Except.ok.inj he))

/-! ## Experiment Registry (modelled from the spec) -/

/-- Modelled from the spec: the five lifecycle actions of the Registry
state machine (the code of the registry backend behind the REST
endpoints is not part of the visible source). -/
inductive TransitionAction where
  | start
  | pause
  | resume
  | endAction
  | archive
deriving DecidableEq, Repr, Fintype

/-- Modelled from the spec: the error taxonomy entries of the registry
operations. -/
inductive RegistryError where
  | conflictError
  | validationError
deriving DecidableEq, Repr

/-- Modelled from the spec: the Registry lifecycle state machine.
Exactly the table DRAFT -start-> RUNNING, RUNNING -pause-> PAUSED,
PAUSED -resume-> RUNNING, RUNNING -end-> FINISHED,
FINISHED -archive-> ARCHIVED; any other (state, action) pair fails with
ConflictError. -/
def transition : Status → TransitionAction → Except RegistryError Status
  | .DRAFT, .start => .ok .RUNNING
  | .RUNNING, .pause => .ok .PAUSED
  | .PAUSED, .resume => .ok .RUNNING
  | .RUNNING, .endAction => .ok .FINISHED
  | .FINISHED, .archive => .ok .ARCHIVED
  | _, _ => .error .conflictError

/-- Modelled from the spec: deleteTest is only permitted from DRAFT,
FINISHED, or ARCHIVED and fails ConflictError otherwise. -/
def registryDelete : Status → Except RegistryError Unit
  | .DRAFT => .ok ()
  | .FINISHED => .ok ()
  | .ARCHIVED => .ok ()
  | _ => .error .conflictError

/-- Modelled from the spec: a variant as validated at creation — a
traffic-split weight (0 to 100) and a baseline mark. -/
structure SpecVariant where
  weight : Int
  baseline : Bool
deriving DecidableEq, Repr

/-- Sum of the traffic-split weights of a variant list. -/
def weightSum (vs : List SpecVariant) : Int :=
  (vs.map SpecVariant.weight).sum

/-- Modelled from the spec: registry create validation — fails
ValidationError if the weights do not sum to 100 or no baseline is
marked; otherwise the test is created. -/
def registryCreate (vs : List SpecVariant) : Except RegistryError (List SpecVariant) :=
  if weightSum vs ≠ 100 then .error .validationError
  else if ¬ vs.any SpecVariant.baseline then .error .validationError
  else .ok vs

/-! ## Variant Assignment Engine (modelled from the spec) -/

/-- Modelled from the spec: the AssignmentRecord store,
(visitor_id, test_id) → variant_id, created once and never
overwritten. -/
def AssignStore : Type := List ((Nat × Nat) × Nat)

/-- Lookup of an AssignmentRecord for (visitor, test). -/
def lookupRecord (s : AssignStore) (visitor test : Nat) : Option Nat :=
  match s.find? (fun r => r.1 = (visitor, test)) with
  | some r => some r.2
  | none => none

/-- Modelled from the spec: assignVariant — sticky: if an
AssignmentRecord already exists for (visitor, test) it is returned
unchanged; otherwise the policy's chosen variant is persisted
(compare-and-set, first writer wins) before being returned.  The
policy's choice is abstracted as the `chosen` argument since the claim
is independent of the fixed-split/bandit policy. -/
def assignVariant (chosen : Nat) (visitor test : Nat) (s : AssignStore) :
    Nat × AssignStore :=
  match lookupRecord s visitor test with
  | some v => (v, s)
  | none => (chosen, ((visitor, test), chosen) :: s)

/-! ## WinnerDecision store (modelled from the spec) -/

/-- Modelled from the spec: the WinnerDecision store,
(test_id, segment) → variant_id, set at most once per (test, segment). -/
def WinnerStore : Type := List ((Nat × Option String) × Nat)

/-- Lookup of the WinnerDecision for (test, segment). -/
def lookupWinner (s : WinnerStore) (test : Nat) (seg : Option String) : Option Nat :=
  match s.find? (fun r => r.1 = (test, seg)) with
  | some r => some r.2
  | none => none

/-- Result of a declareWinner call: success, or ConcurrencyConflict
reporting the already-declared winner. -/
inductive DeclareResult where
  | ok (variantId : Nat)
  | concurrencyConflict (existingWinner : Nat)
deriving DecidableEq, Repr

/-- Modelled from the spec: declareWinner — WinnerDecision creation is a
compare-and-set: only the first writer succeeds; all others receive
ConcurrencyConflict reporting the existing winner, and the store is left
unchanged. -/
def declareWinner (s : WinnerStore) (test : Nat) (seg : Option String)
    (variant : Nat) : DeclareResult × WinnerStore :=
  match lookupWinner s test seg with
  | some w => (.concurrencyConflict w, s)
  | none => (.ok variant, ((test, seg), variant) :: s)

/-! ## Metrics Collector (modelled from the spec) -/

/-- A MetricCounter key: (test, variant, segment). -/
def CounterKey : Type := Nat × Nat × Option String

instance : DecidableEq CounterKey := by
  unfold CounterKey
  infer_instance

/-- Modelled from the spec: a MetricCounter value —
impressions, conversions, revenue_sum. -/
structure Counts where
  impressions : Nat
  conversions : Nat
  revenueSum : Int
deriving DecidableEq, Repr

/-- The zero counter. -/
def Counts.zero : Counts := ⟨0, 0, 0⟩

/-- Pointwise addition of counters (counter increments are deltas,
never absolute sets). -/
def Counts.add (a b : Counts) : Counts :=
  ⟨a.impressions + b.impressions, a.conversions + b.conversions,
   a.revenueSum + b.revenueSum⟩

/-- A keyed bag of counters (in-memory deltas or the persisted store). -/
def CounterMap : Type := List (CounterKey × Counts)

/-- Add a delta to the counter at a key, creating the row lazily on
first event. -/
def addAt (m : CounterMap) (k : CounterKey) (c : Counts) : CounterMap :=
  match m with
  | [] => [(k, c)]
  | (k₀, c₀) :: rest =>
    if k₀ = k then (k₀, c₀.add c) :: rest else (k₀, c₀) :: addAt rest k c

/-- Merge every delta of `src` into `dst` as counter increments. -/
def mergeInto (dst src : CounterMap) : CounterMap :=
  match src with
  | [] => dst
  | (k, c) :: rest => mergeInto (addAt dst k c) rest

/-- Total of all counters of a map, summed over every key. -/
def totalCounts (m : CounterMap) : Counts :=
  match m with
  | [] => Counts.zero
  | (_, c) :: rest => c.add (totalCounts rest)

/-- Modelled from the spec: the Metrics Collector state — in-memory
deltas plus the durable counter store the flush writes to. -/
structure CollectorState where
  deltas : CounterMap
  persisted : CounterMap

/-- The collector's initial state: no deltas buffered, nothing
persisted. -/
def initCollector : CollectorState := ⟨[], []⟩

/-- An ingestion event: recordImpression(test, variant, segment) or
recordConversion(test, variant, segment, revenue). -/
inductive MetricEvent where
  | impression (k : CounterKey)
  | conversion (k : CounterKey) (revenue : Int)

/-- The delta a single event contributes. -/
def MetricEvent.delta : MetricEvent → CounterKey × Counts
  | .impression k => (k, ⟨1, 0, 0⟩)
  | .conversion k r => (k, ⟨0, 1, r⟩)

/-- Modelled from the spec: recordImpression/recordConversion — an
append-only delta into the in-memory counters; never touches the
persisted store. -/
def record (st : CollectorState) (e : MetricEvent) : CollectorState :=
  { st with deltas := addAt st.deltas e.delta.1 e.delta.2 }

/-- Apply a whole sequence of record calls. -/
def recordAll (st : CollectorState) (evs : List MetricEvent) : CollectorState :=
  match evs with
  | [] => st
  | e :: rest => recordAll (record st e) rest

/-- Modelled from the spec: flush — atomically snapshot-and-reset the
in-memory deltas for all keys, then persist the snapshot as counter
increments; when persistence fails, the snapshotted deltas are
re-queued into the in-memory buffer rather than dropped.  `ok` is the
outcome of the persistence attempt. -/
def flush (ok : Bool) (st : CollectorState) : CollectorState :=
  let snapshot := st.deltas
  let reset : CollectorState := { st with deltas := [] }
  if ok then { reset with persisted := mergeInto reset.persisted snapshot }
  else { reset with deltas := mergeInto reset.deltas snapshot }

/-- Sum of the deltas contributed by a list of events. -/
def eventsTotal (evs : List MetricEvent) : Counts :=
  match evs with
  | [] => Counts.zero
  | e :: rest => (e.delta.2).add (eventsTotal rest)

/-! ## Statistical Analyzer (modelled from the spec) -/

/-- Modelled from the spec: per-variant conversion rate =
conversions / impressions (exact rational arithmetic; a variant with
zero impressions gets rate 0 by the convention of rational division). -/
def conversionRate (conversions impressions : Nat) : ℚ :=
  (conversions : ℚ) / (impressions : ℚ)

/-- Modelled from the spec: lift-over-baseline =
(variant_rate − baseline_rate) / baseline_rate. -/
def liftOverBaseline (variantRate baselineRate : ℚ) : ℚ :=
  (variantRate - baselineRate) / baselineRate

/-- Modelled from the spec: the pooled conversion rate of the
two-proportion z-test. -/
def pooledRate (c1 n1 c2 n2 : Nat) : ℚ :=
  ((c1 : ℚ) + (c2 : ℚ)) / ((n1 : ℚ) + (n2 : ℚ))

/-- Modelled from the spec: the square of the two-proportion z-test
statistic, z² = (p₂ − p₁)² / (p̄ (1 − p̄) (1/n₁ + 1/n₂)), kept squared
so that every quantity stays rational. -/
def zSquared (c1 n1 c2 n2 : Nat) : ℚ :=
  let p1 := conversionRate c1 n1
  let p2 := conversionRate c2 n2
  let p := pooledRate c1 n1 c2 n2
  (p2 - p1) ^ 2 / (p * (1 - p) * (1 / (n1 : ℚ) + 1 / (n2 : ℚ)))

/-- The two-sided critical z value for the default alpha of 0.05,
z₀.₀₂₅ ≈ 1.96. -/
def zCrit : ℚ := 196 / 100

/-- Modelled from the spec: is_significant is true when the z-test
p-value is below the configured alpha (default 0.05); for the
two-sided two-proportion z-test this holds exactly when z² exceeds the
squared critical value 1.96². -/
def isSignificant (c1 n1 c2 n2 : Nat) : Bool :=
  zSquared c1 n1 c2 n2 > zCrit ^ 2

/-- Modelled from the spec: the center of the Wilson score interval,
(p̂ + z²/(2n)) / (1 + z²/n). -/
def wilsonCenter (c n : Nat) (z : ℚ) : ℚ :=
  (conversionRate c n + z ^ 2 / (2 * (n : ℚ))) / (1 + z ^ 2 / (n : ℚ))

/-- Modelled from the spec: the square of the half-width of the Wilson
score interval, (z / (1 + z²/n))² (p̂(1 − p̂)/n + z²/(4n²)); the
interval is [center − √radiusSq, center + √radiusSq], and squaring
keeps the quantity rational. -/
def wilsonRadiusSq (c n : Nat) (z : ℚ) : ℚ :=
  let p := conversionRate c n
  (z ^ 2 / (1 + z ^ 2 / (n : ℚ)) ^ 2) * (p * (1 - p) / (n : ℚ) + z ^ 2 / (4 * (n : ℚ) ^ 2))

/-- The per-variant inputs of getAnalysis: a persisted counter
snapshot row. -/
structure VariantCounts where
  impressions : Nat
  conversions : Nat
deriving DecidableEq, Repr

/-- The analysis errors getAnalysis can fail with. -/
inductive AnalysisError where
  | insufficientData
deriving DecidableEq, Repr

/-- A per-variant analysis row: conversion rate, Wilson interval
center and squared half-width. -/
structure VariantAnalysis where
  rate : ℚ
  ciCenter : ℚ
  ciRadiusSq : ℚ
deriving DecidableEq, Repr

/-- Modelled from the spec: getAnalysis — fails InsufficientDataError
when any variant's impression count is below the configured minimum
sample size; otherwise returns the per-variant rates and Wilson
intervals. -/
def getAnalysis (minSample : Nat) (variants : List VariantCounts) :
    Except AnalysisError (List VariantAnalysis) :=
  if variants.any (fun v => v.impressions < minSample) then
    .error .insufficientData
  else
    .ok (variants.map (fun v =>
      ⟨conversionRate v.conversions v.impressions,
       wilsonCenter v.conversions v.impressions zCrit,
       wilsonRadiusSq v.conversions v.impressions zCrit⟩))

/-! ## Creation wizard (src/frontend/.../ABTestCreationWizard.tsx) -/

/-- The Variation record of ABTestCreationWizard.tsx: id, name,
productId, trafficSplit. -/
structure Variation where
  id : String
  name : String
  productId : String
  trafficSplit : Int
deriving DecidableEq, Repr

/-- The initial variations of the wizard state: Variation A and B at a
50/50 split. -/
def initialVariations : List Variation :=
  [⟨"A", "Variation A", "", 50⟩, ⟨"B", "Variation B", "", 50⟩]

/-- handleTrafficSplitChange from ABTestCreationWizard.tsx: a slider
change to `value` sets variations[0].trafficSplit to value and
variations[1].trafficSplit to 100 − value. -/
def handleTrafficSplitChange (value : Int) (vars : List Variation) : List Variation :=
  match vars with
  | v0 :: v1 :: rest =>
    { v0 with trafficSplit := value } :: { v1 with trafficSplit := 100 - value } :: rest
  | other => other

/-- handleVariationProductChange from ABTestCreationWizard.tsx: sets
variations[index].productId (does not change the list length or any
trafficSplit). -/
def handleVariationProductChange (index : Nat) (productId : String)
    (vars : List Variation) : List Variation :=
  vars.mapIdx (fun i v => if i = index then { v with productId := productId } else v)

/-- Sum of the trafficSplit weights of the wizard's variations. -/
def variationSum (vars : List Variation) : Int :=
  (vars.map Variation.trafficSplit).sum

/-! ## Theorems -/

/-- Adding the zero counter changes nothing. -/
theorem Counts.add_zero' (a : Counts) : a.add Counts.zero = a := by
  simp [Counts.add, Counts.zero]

/-- Adding to the zero counter changes nothing. -/
theorem Counts.zero_add' (a : Counts) : Counts.zero.add a = a := by
  simp [Counts.add, Counts.zero]

/-- Counter addition is commutative. -/
theorem Counts.add_comm' (a b : Counts) : a.add b = b.add a := by
  simp only [Counts.add, Counts.mk.injEq]
  omega

/-- Counter addition is associative. -/
theorem Counts.add_assoc' (a b c : Counts) : (a.add b).add c = a.add (b.add c) := by
  simp only [Counts.add, Counts.mk.injEq]
  omega

/-- Adding a delta at one key raises the map's grand total by exactly
that delta. -/
theorem totalCounts_addAt (m : CounterMap) (k : CounterKey) (c : Counts) :
    totalCounts (addAt m k c) = (totalCounts m).add c := by
  induction m with
  | nil => simp [addAt, totalCounts, Counts.zero_add', Counts.add_zero']
  | cons kc rest ih =>
    obtain ⟨k₀, c₀⟩ := kc
    by_cases h : k₀ = k
    · simp only [addAt, if_pos h, totalCounts]
      rw [Counts.add_comm' c₀ c, Counts.add_assoc', Counts.add_comm' c]
    · simp only [addAt, if_neg h, totalCounts, ih]
      rw [← Counts.add_assoc']

/-- Merging two counter maps adds their grand totals. -/
theorem totalCounts_mergeInto (dst src : CounterMap) :
    totalCounts (mergeInto dst src) = (totalCounts dst).add (totalCounts src) := by
  induction src generalizing dst with
  | nil => simp [mergeInto, totalCounts, Counts.add_zero']
  | cons kc rest ih =>
    obtain ⟨k, c⟩ := kc
    simp only [mergeInto, totalCounts, ih, totalCounts_addAt]
    rw [Counts.add_assoc']

/-- Recording a sequence of events accumulates exactly their deltas in
the in-memory buffer and never touches the persisted store. -/
theorem recordAll_spec (evs : List MetricEvent) (st : CollectorState) :
    totalCounts (recordAll st evs).deltas
      = (totalCounts st.deltas).add (eventsTotal evs) ∧
    (recordAll st evs).persisted = st.persisted := by
  induction evs generalizing st with
  | nil => simp [recordAll, eventsTotal, Counts.add_zero']
  | cons e rest ih =>
    simp only [recordAll, eventsTotal]
    constructor
    · rw [(ih (record st e)).1]
      simp only [record, totalCounts_addAt]
      simp only [Counts.add, Counts.mk.injEq]
      refine ⟨?_, ?_, ?_⟩ <;> omega
    · rw [(ih (record st e)).2]
      rfl

/-- A freshly inserted AssignmentRecord is found by lookupRecord. -/
theorem lookupRecord_cons_self (visitor test v : Nat) (s : AssignStore) :
    lookupRecord (((visitor, test), v) :: s) visitor test = some v := by
  simp [lookupRecord, List.find?_cons_of_pos]

/-- A freshly inserted WinnerDecision is found by lookupWinner. -/
theorem lookupWinner_cons_self (t : Nat) (seg : Option String) (v : Nat)
    (s : WinnerStore) :
    lookupWinner (((t, seg), v) :: s) t seg = some v := by
  simp [lookupWinner, List.find?_cons_of_pos]

/-- Claim C2: the Test lifecycle admits exactly the transitions
DRAFT -start-> RUNNING, RUNNING -pause-> PAUSED, PAUSED -resume-> RUNNING,
RUNNING -end-> FINISHED, FINISHED -archive-> ARCHIVED; every other
(state, action) pair fails with ConflictError; ARCHIVED admits no
further transitions, and FINISHED may only move to ARCHIVED. -/
theorem lifecycle_state_machine :
    (transition .DRAFT .start = .ok .RUNNING ∧
     transition .RUNNING .pause = .ok .PAUSED ∧
     transition .PAUSED .resume = .ok .RUNNING ∧
     transition .RUNNING .endAction = .ok .FINISHED ∧
     transition .FINISHED .archive = .ok .ARCHIVED) ∧
    (∀ s a, (s, a) ∉
        ([(.DRAFT, .start), (.RUNNING, .pause), (.PAUSED, .resume),
          (.RUNNING, .endAction), (.FINISHED, .archive)] :
          List (Status × TransitionAction)) →
      transition s a = .error .conflictError) ∧
    (∀ a, transition .ARCHIVED a = .error .conflictError) ∧
    (∀ a s', transition .FINISHED a = .ok s' → a = .archive ∧ s' = .ARCHIVED) := by
  decide

/-- Witness for C2: starting an already-RUNNING test is not in the
table, so it fails with ConflictError. -/
theorem lifecycle_state_machine_witness :
    transition .RUNNING .start = .error .conflictError :=
  lifecycle_state_machine.2.1 .RUNNING .start (by decide)

/-- Claim C9: deleteTest succeeds exactly for DRAFT, FINISHED and
ARCHIVED tests and fails ConflictError for RUNNING and PAUSED ones,
and the management UI (renderActions) offers the Delete button for
exactly those three statuses. -/
theorem delete_status_gate :
    (∀ s, registryDelete s = .ok () ↔
        (s = .DRAFT ∨ s = .FINISHED ∨ s = .ARCHIVED)) ∧
    (∀ s, (s = .RUNNING ∨ s = .PAUSED) →
        registryDelete s = .error .conflictError) ∧
    (∀ s, deleteOffered s = true ↔
        (s = .DRAFT ∨ s = .FINISHED ∨ s = .ARCHIVED)) := by
  decide

/-- Witness for C9: a RUNNING test cannot be deleted. -/
theorem delete_status_gate_witness :
    registryDelete .RUNNING = .error .conflictError :=
  delete_status_gate.2.1 .RUNNING (Or.inl rfl)

/-- Claim C10: the Resume button rendered for a PAUSED experiment
dispatches the 'start' action, so the request it issues is exactly the
one the Start button issues — POST /api/experiments/:id/start carrying
the serialized empty object — and no endpoint of the client's
abTestingApi mentions resume. -/
theorem resume_equals_start (id : Nat) :
    (renderActions .PAUSED).map Prod.fst = ["Resume"] ∧
    (renderActions .PAUSED).map (fun p => handleActionRequest p.2 id)
      = [abTestingApi.startTest id] ∧
    handleActionRequest .start id = abTestingApi.startTest id ∧
    abTestingApi.startTest id
      = ⟨"POST", "/api/experiments/" ++ toString id ++ "/start", some emptyObjectBody⟩ ∧
    abTestingApi.pathTemplates.all (fun t => noOccurrence t "resume") = true := by
  refine ⟨rfl, rfl, rfl, rfl, ?_⟩
  decide

/-- Claim C1: assignVariant is sticky.  An existing AssignmentRecord is
returned unchanged; on a miss the chosen variant is persisted
(compare-and-set) before being returned, so afterwards the store maps
(visitor, test) to the returned variant; and any repeated call — even
one whose policy would have chosen a different variant, as the loser of
a concurrent first-call race would — returns the first call's variant
and leaves the store unchanged. -/
theorem assignVariant_sticky (c1 c2 visitor test : Nat) (s : AssignStore) :
    (∀ w, lookupRecord s visitor test = some w →
        assignVariant c1 visitor test s = (w, s)) ∧
    (lookupRecord s visitor test = none →
        assignVariant c1 visitor test s = (c1, ((visitor, test), c1) :: s)) ∧
    lookupRecord (assignVariant c1 visitor test s).2 visitor test
      = some (assignVariant c1 visitor test s).1 ∧
    assignVariant c2 visitor test (assignVariant c1 visitor test s).2
      = ((assignVariant c1 visitor test s).1, (assignVariant c1 visitor test s).2) := by
  refine ⟨?_, ?_, ?_, ?_⟩
  · intro w hw
    simp [assignVariant, hw]
  · intro hn
    simp [assignVariant, hn]
  · cases h : lookupRecord s visitor test with
    | some w =>
      have e : assignVariant c1 visitor test s = (w, s) := by simp [assignVariant, h]
      rw [e, h]
    | none =>
      have e : assignVariant c1 visitor test s = (c1, ((visitor, test), c1) :: s) := by
        simp [assignVariant, h]
      rw [e]
      exact lookupRecord_cons_self visitor test c1 s
  · cases h : lookupRecord s visitor test with
    | some w =>
      have e : assignVariant c1 visitor test s = (w, s) := by simp [assignVariant, h]
      rw [e]
      simp [assignVariant, h]
    | none =>
      have e : assignVariant c1 visitor test s = (c1, ((visitor, test), c1) :: s) := by
        simp [assignVariant, h]
      rw [e]
      simp [assignVariant, lookupRecord_cons_self]

/-- Witness for C1: a fresh visitor is assigned variant 3 and a racing
second call that would have chosen variant 5 still gets variant 3. -/
theorem assignVariant_sticky_witness :
    assignVariant 3 9 1 [] = (3, [((9, 1), 3)]) ∧
    assignVariant 5 9 1 (assignVariant 3 9 1 []).2
      = ((assignVariant 3 9 1 []).1, (assignVariant 3 9 1 []).2) :=
  ⟨(assignVariant_sticky 3 5 9 1 []).2.1 rfl,
   (assignVariant_sticky 3 5 9 1 []).2.2.2⟩

/-- Claim C3: WinnerDecision is compare-and-set.  With no winner yet
for (test, segment), declareWinner T B succeeds and persists B; a
subsequent declareWinner T A for the same test and segment returns
ConcurrencyConflict reporting B as the already-declared winner and
leaves the stored WinnerDecision unchanged. -/
theorem declareWinner_set_once (s : WinnerStore) (t : Nat) (seg : Option String)
    (a b : Nat) (h : lookupWinner s t seg = none) :
    declareWinner s t seg b = (.ok b, ((t, seg), b) :: s) ∧
    declareWinner ((declareWinner s t seg b).2) t seg a
      = (.concurrencyConflict b, (declareWinner s t seg b).2) := by
  have e : declareWinner s t seg b = (.ok b, ((t, seg), b) :: s) := by
    simp [declareWinner, h]
  refine ⟨e, ?_⟩
  rw [e]
  simp [declareWinner, lookupWinner_cons_self]

/-- Witness for C3: on an empty store, declaring variant 3 the winner
of test 1 succeeds, and a second declaration of variant 2 returns
ConcurrencyConflict reporting 3. -/
theorem declareWinner_set_once_witness :
    declareWinner [] 1 none 3 = (.ok 3, [((1, none), 3)]) ∧
    declareWinner ((declareWinner [] 1 none 3).2) 1 none 2
      = (.concurrencyConflict 3, (declareWinner [] 1 none 3).2) :=
  declareWinner_set_once [] 1 none 2 3 rfl

/-- Claim C5: any slider change to value v sets the two variations'
weights to v and 100 − v, so the wizard's submitted weights always sum
to 100 (as does the initial 50/50 state); and the registry's create
validation fails ValidationError when the weights do not sum to 100 or
no baseline is marked, so every created test has weights summing
to 100. -/
theorem traffic_split_invariant (value : Int) (v0 v1 : Variation)
    (vs : List SpecVariant) :
    (handleTrafficSplitChange value [v0, v1]).map Variation.trafficSplit
      = [value, 100 - value] ∧
    variationSum (handleTrafficSplitChange value [v0, v1]) = 100 ∧
    variationSum initialVariations = 100 ∧
    (weightSum vs ≠ 100 → registryCreate vs = .error .validationError) ∧
    (¬ vs.any SpecVariant.baseline → registryCreate vs = .error .validationError) ∧
    (∀ t, registryCreate vs = .ok t → weightSum vs = 100) := by
  refine ⟨rfl, ?_, rfl, ?_, ?_, ?_⟩
  · simp [handleTrafficSplitChange, variationSum]
  · intro h
    simp [registryCreate, h]
  · intro h
    by_cases hw : weightSum vs = 100 <;> simp [registryCreate, hw, h]
  · intro t ht
    by_cases hw : weightSum vs = 100
    · exact hw
    · simp [registryCreate, hw] at ht

/-- Claim C6: for baseline A at 1000 impressions / 100 conversions and
B at 1000 impressions / 140 conversions, the analysis yields rates
10.0% and 14.0%, lift-over-baseline of exactly +40%, a z statistic
whose square 250/33 exceeds the squared 0.05 critical value 1.96²
(equivalently, two-sided p-value below 0.05), and is_significant =
true. -/
theorem scenario_significant_analysis :
    conversionRate 100 1000 = 10 / 100 ∧
    conversionRate 140 1000 = 14 / 100 ∧
    liftOverBaseline (conversionRate 140 1000) (conversionRate 100 1000) = 40 / 100 ∧
    zSquared 100 1000 140 1000 = 250 / 33 ∧
    zSquared 100 1000 140 1000 > zCrit ^ 2 ∧
    isSignificant 100 1000 140 1000 = true := by
  refine ⟨?_, ?_, ?_, ?_, ?_, ?_⟩ <;>
    norm_num [conversionRate, liftOverBaseline, zSquared, pooledRate,
      isSignificant, zCrit]

/-- Claim C7: for every variant with a positive impression count and
conversions bounded by impressions, the conversion rate lies in [0, 1]
and the Wilson score interval contains the point estimate — the
squared distance of the rate from the interval's center never exceeds
the squared half-width, i.e. center − radius ≤ rate ≤ center + radius. -/
theorem wilson_contains_estimate (c n : Nat) (z : ℚ) (hn : 0 < n) (hcn : c ≤ n) :
    (0 ≤ conversionRate c n ∧ conversionRate c n ≤ 1) ∧
    (conversionRate c n - wilsonCenter c n z) ^ 2 ≤ wilsonRadiusSq c n z := by
  have hN : (0 : ℚ) < (n : ℚ) := by exact_mod_cast hn
  have hNne : (n : ℚ) ≠ 0 := ne_of_gt hN
  have hp0 : 0 ≤ conversionRate c n := by
    unfold conversionRate
    positivity
  have hp1 : conversionRate c n ≤ 1 := by
    unfold conversionRate
    rw [div_le_one hN]
    exact_mod_cast hcn
  have hD : (0 : ℚ) < 1 + z ^ 2 / (n : ℚ) := by positivity
  have hDne : (1 : ℚ) + z ^ 2 / (n : ℚ) ≠ 0 := ne_of_gt hD
  refine ⟨⟨hp0, hp1⟩, ?_⟩
  set p := conversionRate c n with hp
  have key : wilsonRadiusSq c n z - (p - wilsonCenter c n z) ^ 2
      = (p * (1 - p)) * (z ^ 2 / (n : ℚ) + z ^ 4 / (n : ℚ) ^ 2)
        / (1 + z ^ 2 / (n : ℚ)) ^ 2 := by
    unfold wilsonRadiusSq wilsonCenter
    rw [← hp]
    field_simp
    ring
  have hq : 0 ≤ p * (1 - p) := by nlinarith
  have hnonneg : 0 ≤ wilsonRadiusSq c n z - (p - wilsonCenter c n z) ^ 2 := by
    rw [key]
    positivity
  linarith

/-- Witness for C7: at 3 conversions over 10 impressions with the
default z of 1.96, the rate 0.3 lies in [0, 1] and within the Wilson
interval. -/
theorem wilson_contains_estimate_witness :
    (0 ≤ conversionRate 3 10 ∧ conversionRate 3 10 ≤ 1) ∧
    (conversionRate 3 10 - wilsonCenter 3 10 zCrit) ^ 2 ≤ wilsonRadiusSq 3 10 zCrit :=
  wilson_contains_estimate 3 10 zCrit (by decide) (by decide)

/-- Claim C8: getAnalysis fails InsufficientDataError whenever some
variant's impression count is below the configured minimum sample
size; in particular a test whose variants all have exactly 5
impressions fails InsufficientDataError for any configured minimum
above 5, rather than returning CI or significance figures. -/
theorem insufficient_data_floor (minSample : Nat) (variants : List VariantCounts) :
    ((∃ v ∈ variants, v.impressions < minSample) →
        getAnalysis minSample variants = .error .insufficientData) ∧
    (5 < minSample → variants ≠ [] → (∀ v ∈ variants, v.impressions = 5) →
        getAnalysis minSample variants = .error .insufficientData) := by
  have general : (∃ v ∈ variants, v.impressions < minSample) →
      getAnalysis minSample variants = .error .insufficientData := by
    intro h
    have ha : variants.any (fun v => v.impressions < minSample) = true := by
      rw [List.any_eq_true]
      obtain ⟨v, hv, hlt⟩ := h
      exact ⟨v, hv, by simpa using hlt⟩
    simp [getAnalysis, ha]
  refine ⟨general, ?_⟩
  intro h5 hne hall
  obtain ⟨v, rest, rfl⟩ : ∃ v rest, variants = v :: rest := by
    cases variants with
    | nil => exact absurd rfl hne
    | cons a b => exact ⟨a, b, rfl⟩
  apply general
  refine ⟨v, List.mem_cons_self v rest, ?_⟩
  have := hall v (List.mem_cons_self v rest)
  omega

/-- Claim C4: after any sequence of recordImpression/recordConversion
calls followed by one successful flush, the total persisted counts
equal the sum of all recorded deltas — no more, no less; the flush
snapshot-and-resets the buffer, so flushing again persists nothing new
(the same snapshot is never applied twice); and a failed flush
re-queues the snapshotted deltas, conserving them so a later retry
still persists exactly the recorded totals. -/
theorem flush_conservation (evs : List MetricEvent) :
    totalCounts (flush true (recordAll initCollector evs)).persisted
      = eventsTotal evs ∧
    (flush true (recordAll initCollector evs)).deltas = [] ∧
    (∀ st : CollectorState, flush true (flush true st) = flush true st) ∧
    (∀ st : CollectorState,
        totalCounts (flush false st).deltas = totalCounts st.deltas ∧
        (flush false st).persisted = st.persisted) ∧
    totalCounts (flush true (flush false (recordAll initCollector evs))).persisted
      = eventsTotal evs := by
  have hrec := recordAll_spec evs initCollector
  refine ⟨?_, ?_, ?_, ?_, ?_⟩
  · simp only [flush, if_pos]
    simp only [hrec.2]
    show totalCounts (mergeInto (initCollector.persisted)
      (recordAll initCollector evs).deltas) = _
    rw [totalCounts_mergeInto, hrec.1]
    simp [initCollector, totalCounts, Counts.zero_add']
  · simp [flush]
  · intro st
    simp [flush, mergeInto]
  · intro st
    constructor
    · simp only [flush, if_neg]
      show totalCounts (mergeInto [] st.deltas) = _
      rw [totalCounts_mergeInto]
      simp [totalCounts, Counts.zero_add']
    · simp [flush]
  · simp only [flush]
    simp only [if_pos, if_neg]
    show totalCounts (mergeInto (recordAll initCollector evs).persisted
      (mergeInto [] (recordAll initCollector evs).deltas)) = _
    rw [totalCounts_mergeInto, totalCounts_mergeInto, hrec.1, hrec.2]
    simp [initCollector, totalCounts, Counts.zero_add']

/-- Witness for C8: with a configured minimum of 30, a two-variant test
with 5 impressions each fails InsufficientDataError. -/
theorem insufficient_data_floor_witness :
    getAnalysis 30 [⟨5, 1⟩, ⟨5, 2⟩] = .error .insufficientData :=
  (insufficient_data_floor 30 [⟨5, 1⟩, ⟨5, 2⟩]).2 (by decide) (by decide)
    (by decide)

/-- Witness for C5: a slider change to 30 yields weights 30 and 70,
and creating a test whose weights sum to 90 fails ValidationError. -/
theorem traffic_split_invariant_witness :
    variationSum (handleTrafficSplitChange 30 [⟨"A", "Variation A", "", 50⟩,
      ⟨"B", "Variation B", "", 50⟩]) = 100 ∧
    registryCreate [⟨40, true⟩, ⟨50, false⟩] = .error .validationError :=
  ⟨(traffic_split_invariant 30 ⟨"A", "Variation A", "", 50⟩
      ⟨"B", "Variation B", "", 50⟩ []).2.1,
   (traffic_split_invariant 30 ⟨"A", "Variation A", "", 50⟩
      ⟨"B", "Variation B", "", 50⟩ [⟨40, true⟩, ⟨50, false⟩]).2.2.2.1 (by decide)⟩

end ABTesting
